import Mathlib

/-!
Verification of the two-stage front end of the `Analisador_Sintatico`
repository: the lexical scanner `analisar_linha` (analisador.py) and the
recursive-descent recognizer `Parser` (sintatico.py), embedded shallowly.

The scanner is embedded as a fuel-indexed, `Option`-valued loop over the
line's characters: `none` marks either an out-of-bounds character access
that the Python source would perform unguardedly, or exhaustion of the
loop bound.  `analisar_linha` runs the loop with fuel equal to the line
length, which dominates the number of loop iterations; totality of the
Python function is the statement that `none` is never reached.

Machine strings are `List Char` at scan level; token texts are `String`.
The Python character-class predicates (`str.isspace`, `str.isalpha`,
`str.isalnum`, `str.isdigit`) are modelled on their ASCII fragment.
-/

namespace AnalisadorSintatico

/-- The single-quote character, written by code to stay clear of literal-quote
syntax. -/
def singleQuote : Char := Char.ofNat 39

/-- The opening-brace character. -/
def openBraceCh : Char := Char.ofNat 123

/-- The closing-brace character. -/
def closeBraceCh : Char := Char.ofNat 125

/-- ASCII fragment of Python `str.isspace`. -/
def isSpaceCh (c : Char) : Bool :=
  c.toNat = 32 || c.toNat = 9 || c.toNat = 10 || c.toNat = 13 || c.toNat = 11 || c.toNat = 12

/-- ASCII fragment of Python `str.isalpha`. -/
def isAlphaCh (c : Char) : Bool :=
  (65 ≤ c.toNat && c.toNat ≤ 90) || (97 ≤ c.toNat && c.toNat ≤ 122)

/-- ASCII fragment of Python `str.isdigit`. -/
def isDigitCh (c : Char) : Bool :=
  48 ≤ c.toNat && c.toNat ≤ 57

/-- ASCII fragment of Python `str.isalnum`. -/
def isAlnumCh (c : Char) : Bool :=
  isAlphaCh c || isDigitCh c

/-- tokens.py `TokenType`. -/
inductive TokenType where
  | PALAVRA_RESERVADA
  | IDENTIFICADOR
  | NUMERO
  | REAL
  | STRING
  | CARACTERE
  | OPERADOR
  | SIMBOLO
  | COMENTARIO
  | ERRO
deriving DecidableEq

/-- The `.value` string of each tokens.py enumeration member. -/
def TokenType.value : TokenType → String
  | .PALAVRA_RESERVADA => "PalavraReservada"
  | .IDENTIFICADOR => "Identificador"
  | .NUMERO => "Numero"
  | .REAL => "Real"
  | .STRING => "String"
  | .CARACTERE => "Caractere"
  | .OPERADOR => "Operador"
  | .SIMBOLO => "Simbolo"
  | COMENTARIO => "Comentario"
  | .ERRO => "Erro"

/-- tokens.py `Token`. -/
structure Token where
  tipo : TokenType
  valor : String
  linha : Nat
deriving DecidableEq

open TokenType

/-- analisador.py `palavras_reservadas`. -/
def palavras_reservadas : List String :=
  ["int", "real", "char", "return"]

/-- The recognized symbol characters, the Python string `"();{}=+"`. -/
def simbolos : List Char :=
  ['(', ')', ';', openBraceCh, closeBraceCh, '=', '+']

/-- The inner while loop of the identifier branch of `analisar_linha`:
consume while the character is alphanumeric or an underscore. -/
def identTake (s : List Char) : List Char :=
  s.takeWhile (fun ch => isAlnumCh ch || ch == '_')

/-- The inner while loop of the numeric branch of `analisar_linha`:
consume digits and dots, where a dot met with `ponto` already set breaks
the loop without being consumed.  Returns the consumed lexeme and the
final value of the `ponto` flag. -/
def numTake : List Char → Bool → List Char × Bool
  | [], ponto => ([], ponto)
  | ch :: rest, ponto =>
    if isDigitCh ch then
      let r := numTake rest ponto
      (ch :: r.1, r.2)
    else if ch = '.' then
      if ponto then ([], ponto)
      else
        let r := numTake rest true
        (ch :: r.1, r.2)
    else ([], ponto)

/-- The inner while loop of the string branch of `analisar_linha`:
consume until a closing double quote or the end of the line. -/
def strTake (s : List Char) : List Char :=
  s.takeWhile (fun ch => ch != '"')

/-- The scanning loop of analisador.py `analisar_linha`, from position `i`.
One unit of fuel is one iteration of the Python `while i < len(linha)`
loop.  `none` models an out-of-bounds access (only the `linha[i+1]` read
of the character-literal branch is performed unguardedly by the source)
or fuel exhaustion; the zero-fuel case still honours the loop condition,
mirroring a loop that has already left the line. -/
def scanFrom (linha : List Char) (num_linha : Nat) : Nat → Nat → Option (List Token)
  | 0, i => if linha.length ≤ i then some [] else none
  | fuel + 1, i =>
    match linha[i]? with
    | none => some []
    | some c =>
      if isSpaceCh c then
        scanFrom linha num_linha fuel (i + 1)
      else if isAlphaCh c then
        let lexema := identTake (linha.drop i)
        let tipo := if String.mk lexema ∈ palavras_reservadas then
            TokenType.PALAVRA_RESERVADA else TokenType.IDENTIFICADOR
        Option.map (fun ts => Token.mk tipo (String.mk lexema) num_linha :: ts)
          (scanFrom linha num_linha fuel (i + lexema.length))
      else if isDigitCh c then
        let r := numTake (linha.drop i) false
        Option.map (fun ts =>
            Token.mk (if r.2 then TokenType.REAL else TokenType.NUMERO) (String.mk r.1) num_linha :: ts)
          (scanFrom linha num_linha fuel (i + r.1.length))
      else if c = '"' then
        let sv := strTake (linha.drop (i + 1))
        Option.map (fun ts => Token.mk TokenType.STRING (String.mk sv) num_linha :: ts)
          (scanFrom linha num_linha fuel (i + 1 + sv.length + 1))
      else if c = singleQuote then
        match linha[i + 2]? with
        | some c2 =>
          if c2 = singleQuote then
            match linha[i + 1]? with
            | some c1 =>
              Option.map (fun ts => Token.mk TokenType.CARACTERE (String.mk [c1]) num_linha :: ts)
                (scanFrom linha num_linha fuel (i + 3))
            | none => none
          else some [Token.mk TokenType.ERRO (String.mk (linha.drop i)) num_linha]
        | none => some [Token.mk TokenType.ERRO (String.mk (linha.drop i)) num_linha]
      else if c = '\\' ∧ linha[i + 1]? = some '\\' then
        some [Token.mk COMENTARIO (String.mk (linha.drop i)) num_linha]
      else if c ∈ simbolos then
        Option.map (fun ts => Token.mk TokenType.SIMBOLO (String.mk [c]) num_linha :: ts)
          (scanFrom linha num_linha fuel (i + 1))
      else
        Option.map (fun ts => Token.mk TokenType.ERRO (String.mk [c]) num_linha :: ts)
          (scanFrom linha num_linha fuel (i + 1))

/-- analisador.py `analisar_linha`: scan a whole line.  The fuel
`linha.length` dominates the iteration count because every loop iteration
advances the cursor by at least one position. -/
def analisar_linha (linha : List Char) (num_linha : Nat) : Option (List Token) :=
  scanFrom linha num_linha linha.length 0

/-- The line slot of sintatico.py `SyntaxError`: the Python code stores
`None`, an integer line number, or the string `"EOF"` there. -/
inductive LineInfo where
  | noLine
  | line (n : Nat)
  | eofLine
deriving DecidableEq

/-- sintatico.py `SyntaxError`, as a value: its message and its line slot. -/
structure SyntaxError where
  message : String
  linha : LineInfo
deriving DecidableEq

instance {ε α : Type} [DecidableEq ε] [DecidableEq α] : DecidableEq (Except ε α) := fun a b =>
  match a, b with
  | .ok x, .ok y =>
    if h : x = y then isTrue (by rw [h]) else isFalse (by simp [h])
  | .ok _, .error _ => isFalse (by simp)
  | .error _, .ok _ => isFalse (by simp)
  | .error x, .error y =>
    if h : x = y then isTrue (by rw [h]) else isFalse (by simp [h])

/-- A single-quote string, used to embed the quoting of the Python
f-string messages. -/
def sq : String := String.singleton singleQuote

/-- Wrap a string in single quotes, as the Python f-string messages do. -/
def quoted (s : String) : String := sq ++ s ++ sq

/-- The string of the opening brace. -/
def lbrace : String := String.singleton openBraceCh

/-- The string of the closing brace. -/
def rbrace : String := String.singleton closeBraceCh

/-- sintatico.py `Parser.current_token`: the token at the cursor, or none
past the end. -/
def currentToken (tokens : List Token) (pos : Nat) : Option Token :=
  tokens[pos]?

/-- sintatico.py `Parser._consume`: expect a token of the given type (and,
optionally, exact value) at the cursor; on success return the advanced
cursor, otherwise the `SyntaxError` the source raises. -/
def consume (tokens : List Token) (pos : Nat) (expected_type : TokenType)
    (expected_value : Option String) : Except SyntaxError Nat :=
  match tokens[pos]? with
  | none =>
    let expected_descr :=
      match expected_value with
      | some v => quoted v ++ " (" ++ expected_type.value ++ ")"
      | none => expected_type.value
    .error ⟨"Unexpected end of input. Expected " ++ expected_descr ++ ".", .noLine⟩
  | some token =>
    if token.tipo ≠ expected_type then
      .error ⟨"Expected token type " ++ expected_type.value ++ ", got "
        ++ token.tipo.value ++ " (" ++ quoted token.valor ++ ")", .line token.linha⟩
    else
      match expected_value with
      | some v =>
        if token.valor ≠ v then
          .error ⟨"Expected token value " ++ quoted v ++ ", got " ++ quoted token.valor
            ++ " for type " ++ token.tipo.value, .line token.linha⟩
        else .ok (pos + 1)
      | none => .ok (pos + 1)

/-- sintatico.py `Parser.parse_tipo`. -/
def parse_tipo (tokens : List Token) (pos : Nat) : Except SyntaxError Nat :=
  match tokens[pos]? with
  | some token =>
    if token.tipo = TokenType.PALAVRA_RESERVADA ∧
        (token.valor = "int" ∨ token.valor = "real" ∨ token.valor = "char") then
      consume tokens pos TokenType.PALAVRA_RESERVADA (some token.valor)
    else
      .error ⟨"Expected type (int, real, char), got " ++ quoted token.valor, .line token.linha⟩
  | none =>
    .error ⟨"Expected type (int, real, char), got " ++ quoted "None", .eofLine⟩

/-- sintatico.py `Parser.parse_termo`. -/
def parse_termo (tokens : List Token) (pos : Nat) : Except SyntaxError Nat :=
  match tokens[pos]? with
  | none => .error ⟨"Unexpected end of input expecting a term.", .noLine⟩
  | some token =>
    if token.tipo = TokenType.IDENTIFICADOR then
      consume tokens pos TokenType.IDENTIFICADOR none
    else if token.tipo = TokenType.NUMERO then
      consume tokens pos TokenType.NUMERO none
    else if token.tipo = TokenType.REAL then
      consume tokens pos TokenType.REAL none
    else if token.tipo = TokenType.STRING then
      consume tokens pos TokenType.STRING none
    else if token.tipo = TokenType.CARACTERE then
      consume tokens pos TokenType.CARACTERE none
    else
      .error ⟨"Expected identifier, number, real, string, or character, got "
        ++ quoted token.valor, .line token.linha⟩

/-- The `SyntaxError` returned when a loop's fuel runs out.  The Python
loops always terminate, and the fuel chosen by `parse_programa` dominates
their iteration counts, so this error is unreachable from `parse_programa`;
it only closes the embedding. -/
def fuelError : SyntaxError := ⟨"recursion budget exhausted", .noLine⟩

/-- The while loop of sintatico.py `Parser.parse_expressao`: as long as the
current token is the Symbol `+`, consume it and a further term. -/
def plusLoop (tokens : List Token) : Nat → Nat → Except SyntaxError Nat
  | 0, pos =>
    match tokens[pos]? with
    | some t =>
      if t.tipo = TokenType.SIMBOLO ∧ t.valor = "+" then .error fuelError else .ok pos
    | none => .ok pos
  | fuel + 1, pos =>
    match tokens[pos]? with
    | some t =>
      if t.tipo = TokenType.SIMBOLO ∧ t.valor = "+" then
        match consume tokens pos TokenType.SIMBOLO (some "+") with
        | .error e => .error e
        | .ok p1 =>
          match parse_termo tokens p1 with
          | .error e => .error e
          | .ok p2 => plusLoop tokens fuel p2
      else .ok pos
    | none => .ok pos

/-- sintatico.py `Parser.parse_expressao`. -/
def parse_expressao (tokens : List Token) (fuel pos : Nat) : Except SyntaxError Nat :=
  match parse_termo tokens pos with
  | .error e => .error e
  | .ok p => plusLoop tokens fuel p

/-- sintatico.py `Parser.parse_declaracao_variavel`. -/
def parse_declaracao_variavel (tokens : List Token) (fuel pos : Nat) : Except SyntaxError Nat :=
  match parse_tipo tokens pos with
  | .error e => .error e
  | .ok p1 =>
    match consume tokens p1 TokenType.IDENTIFICADOR none with
    | .error e => .error e
    | .ok p2 =>
      let afterInit : Except SyntaxError Nat :=
        match tokens[p2]? with
        | some t =>
          if t.tipo = TokenType.SIMBOLO ∧ t.valor = "=" then
            match consume tokens p2 TokenType.SIMBOLO (some "=") with
            | .error e => .error e
            | .ok q1 => parse_expressao tokens fuel q1
          else .ok p2
        | none => .ok p2
      match afterInit with
      | .error e => .error e
      | .ok p3 => consume tokens p3 TokenType.SIMBOLO (some ";")

/-- sintatico.py `Parser.parse_atribuicao`. -/
def parse_atribuicao (tokens : List Token) (fuel pos : Nat) : Except SyntaxError Nat :=
  match consume tokens pos TokenType.IDENTIFICADOR none with
  | .error e => .error e
  | .ok p1 =>
    match consume tokens p1 TokenType.SIMBOLO (some "=") with
    | .error e => .error e
    | .ok p2 =>
      match parse_expressao tokens fuel p2 with
      | .error e => .error e
      | .ok p3 => consume tokens p3 TokenType.SIMBOLO (some ";")

/-- sintatico.py `Parser.parse_lista_argumentos` (one argument only, as the
source documents). -/
def parse_lista_argumentos (tokens : List Token) (fuel pos : Nat) : Except SyntaxError Nat :=
  parse_expressao tokens fuel pos

/-- sintatico.py `Parser.parse_lista_argumentos_opcional`. -/
def parse_lista_argumentos_opcional (tokens : List Token) (fuel pos : Nat) :
    Except SyntaxError Nat :=
  match tokens[pos]? with
  | some t =>
    if ¬ (t.tipo = TokenType.SIMBOLO ∧ t.valor = ")") then
      parse_lista_argumentos tokens fuel pos
    else .ok pos
  | none => .ok pos

/-- sintatico.py `Parser.parse_chamada_funcao_stmt`. -/
def parse_chamada_funcao_stmt (tokens : List Token) (fuel pos : Nat) : Except SyntaxError Nat :=
  match consume tokens pos TokenType.IDENTIFICADOR none with
  | .error e => .error e
  | .ok p1 =>
    match consume tokens p1 TokenType.SIMBOLO (some "(") with
    | .error e => .error e
    | .ok p2 =>
      match parse_lista_argumentos_opcional tokens fuel p2 with
      | .error e => .error e
      | .ok p3 =>
        match consume tokens p3 TokenType.SIMBOLO (some ")") with
        | .error e => .error e
        | .ok p4 => consume tokens p4 TokenType.SIMBOLO (some ";")

/-- sintatico.py `Parser.parse_comando_retorno`. -/
def parse_comando_retorno (tokens : List Token) (fuel pos : Nat) : Except SyntaxError Nat :=
  match consume tokens pos TokenType.PALAVRA_RESERVADA (some "return") with
  | .error e => .error e
  | .ok p1 =>
    match parse_expressao tokens fuel p1 with
    | .error e => .error e
    | .ok p2 => consume tokens p2 TokenType.SIMBOLO (some ";")

/-- sintatico.py `Parser.parse_comando`: the statement dispatch, with its
one-token lookahead at an identifier. -/
def parse_comando (tokens : List Token) (fuel pos : Nat) : Except SyntaxError Nat :=
  match tokens[pos]? with
  | none => .error ⟨"Unexpected end of input expecting a command.", .noLine⟩
  | some token =>
    if token.tipo = TokenType.PALAVRA_RESERVADA then
      if token.valor = "return" then
        parse_comando_retorno tokens fuel pos
      else if token.valor = "int" ∨ token.valor = "real" ∨ token.valor = "char" then
        parse_declaracao_variavel tokens fuel pos
      else
        .error ⟨"Unexpected reserved word " ++ quoted token.valor
          ++ " at start of a command.", .line token.linha⟩
    else if token.tipo = TokenType.IDENTIFICADOR then
      match tokens[pos + 1]? with
      | some next_token =>
        if next_token.tipo = TokenType.SIMBOLO ∧ next_token.valor = "=" then
          parse_atribuicao tokens fuel pos
        else if next_token.tipo = TokenType.SIMBOLO ∧ next_token.valor = "(" then
          parse_chamada_funcao_stmt tokens fuel pos
        else
          .error ⟨"After identifier " ++ quoted token.valor ++ ", expected " ++ quoted "="
            ++ " or " ++ quoted "(" ++ " but got " ++ quoted next_token.valor,
            .line next_token.linha⟩
      | none =>
        .error ⟨"Unexpected end of input after identifier " ++ quoted token.valor
          ++ ". Expected assignment or function call.", .line token.linha⟩
    else
      .error ⟨"Unexpected token " ++ quoted token.valor ++ " to start a command.",
        .line token.linha⟩

/-- The while loop of sintatico.py `Parser.parse_lista_comandos`: parse
commands until the cursor sits on the closing brace or past the end. -/
def parse_lista_comandos (tokens : List Token) : Nat → Nat → Except SyntaxError Nat
  | 0, pos =>
    match tokens[pos]? with
    | some t =>
      if t.tipo = TokenType.SIMBOLO ∧ t.valor = rbrace then .ok pos else .error fuelError
    | none => .ok pos
  | fuel + 1, pos =>
    match tokens[pos]? with
    | some t =>
      if t.tipo = TokenType.SIMBOLO ∧ t.valor = rbrace then .ok pos
      else
        match parse_comando tokens fuel pos with
        | .error e => .error e
        | .ok p => parse_lista_comandos tokens fuel p
    | none => .ok pos

/-- sintatico.py `Parser.parse_declaracao_funcao`. -/
def parse_declaracao_funcao (tokens : List Token) (fuel pos : Nat) : Except SyntaxError Nat :=
  match parse_tipo tokens pos with
  | .error e => .error e
  | .ok p1 =>
    match consume tokens p1 TokenType.IDENTIFICADOR none with
    | .error e => .error e
    | .ok p2 =>
      match consume tokens p2 TokenType.SIMBOLO (some "(") with
      | .error e => .error e
      | .ok p3 =>
        match consume tokens p3 TokenType.SIMBOLO (some ")") with
        | .error e => .error e
        | .ok p4 =>
          match consume tokens p4 TokenType.SIMBOLO (some lbrace) with
          | .error e => .error e
          | .ok p5 =>
            match parse_lista_comandos tokens fuel p5 with
            | .error e => .error e
            | .ok p6 => consume tokens p6 TokenType.SIMBOLO (some rbrace)

/-- sintatico.py `Parser.parse_programa`, started on a fresh `Parser`
(cursor at zero): recognize one function declaration and then require the
cursor to sit past the end of the sequence.  The fuel `tokens.length + 1`
dominates every loop's iteration count, because each successfully parsed
command and each consumed `+ term` advances the cursor. -/
def parse_programa (tokens : List Token) : Except SyntaxError Unit :=
  match parse_declaracao_funcao tokens (tokens.length + 1) 0 with
  | .error e => .error e
  | .ok p =>
    match tokens[p]?with
    | some t =>
      .error ⟨"Unexpected token " ++ quoted t.valor ++ " after program completion.",
        .line t.linha⟩
    | none => .ok ()

/-! ## Helper lemmas -/

theorem lt_length_of_getElem? {α : Type} {l : List α} {i : Nat} {c : α}
    (h : l[i]? = some c) : i < l.length :=
  (List.getElem?_eq_some.1 h).1

theorem drop_cons_of_getElem? {α : Type} {l : List α} {i : Nat} {c : α}
    (h : l[i]? = some c) : l.drop i = c :: l.drop (i + 1) := by
  obtain ⟨hl, hc⟩ := List.getElem?_eq_some.1 h
  rw [List.drop_eq_getElem_cons hl, hc]

theorem takeWhile_all_eq_self {p : Char → Bool} :
    ∀ (l : List Char), (∀ x ∈ l, p x = true) → l.takeWhile p = l := by
  intro l
  induction l with
  | nil => intro _; rfl
  | cons a l ih =>
    intro hall
    have ha := hall a (by simp)
    simp [List.takeWhile, ha, ih fun x hx => hall x (by simp [hx])]

theorem takeWhile_stop {p : Char → Bool} :
    ∀ (l : List Char) (ch : Char),
      l[(l.takeWhile p).length]? = some ch → p ch = false := by
  intro l
  induction l with
  | nil => intro ch h; simp at h
  | cons a l ih =>
    intro ch h
    by_cases ha : p a
    · rw [List.takeWhile_cons_of_pos ha] at h
      exact ih ch (by simpa using h)
    · rw [List.takeWhile_cons_of_neg ha] at h
      simp at h
      rw [← h]
      exact Bool.eq_false_iff.2 ha

theorem takeWhile_mem {p : Char → Bool} :
    ∀ (l : List Char) (x : Char), x ∈ l.takeWhile p → p x = true := by
  intro l
  induction l with
  | nil => intro x h; simp at h
  | cons a l ih =>
    intro x h
    by_cases ha : p a
    · rw [List.takeWhile_cons_of_pos ha] at h
      rcases List.mem_cons.1 h with rfl | h
      · exact ha
      · exact ih x h
    · rw [List.takeWhile_cons_of_neg ha] at h
      simp at h

theorem isAlphaCh_not_space {c : Char} (h : isAlphaCh c = true) : isSpaceCh c = false := by
  simp only [isAlphaCh, Bool.or_eq_true, Bool.and_eq_true, decide_eq_true_eq] at h
  simp only [isSpaceCh, Bool.or_eq_false_iff, decide_eq_false_iff_not]
  omega

theorem isDigitCh_not_space {c : Char} (h : isDigitCh c = true) : isSpaceCh c = false := by
  simp only [isDigitCh, Bool.and_eq_true, decide_eq_true_eq] at h
  simp only [isSpaceCh, Bool.or_eq_false_iff, decide_eq_false_iff_not]
  omega

theorem isDigitCh_not_alpha {c : Char} (h : isDigitCh c = true) : isAlphaCh c = false := by
  simp only [isDigitCh, Bool.and_eq_true, decide_eq_true_eq] at h
  simp only [isAlphaCh, Bool.or_eq_false_iff, Bool.and_eq_false_iff, decide_eq_false_iff_not]
  omega

theorem isAlphaCh_alnum {c : Char} (h : isAlphaCh c = true) : isAlnumCh c = true := by
  simp [isAlnumCh, h]

/-- Scanning from a position at or past the end of the line yields no
further tokens, whatever fuel remains. -/
theorem scanFrom_past (linha : List Char) (num_linha : Nat) (fuel i : Nat)
    (h : linha.length ≤ i) : scanFrom linha num_linha fuel i = some [] := by
  cases fuel with
  | zero => simp [scanFrom, h]
  | succ fuel => simp [scanFrom, List.getElem?_eq_none h]

/-! ## Claims about the scanner -/

/-- C2: at a scan position holding a single quote, if the character two
positions later (within the line) is also a single quote, the scanner
emits exactly one Character token whose text is the single character
between the quotes, and resumes three positions further on; for any other
shape (including line end before the closing quote) it emits exactly one
Error token whose text is the remainder of the line from the opening
quote, and scanning of the line stops immediately. -/
theorem char_literal_step (linha : List Char) (num_linha i fuel : Nat)
    (h : linha[i]? = some singleQuote) :
    (∀ c1, linha[i + 1]? = some c1 → linha[i + 2]? = some singleQuote →
      scanFrom linha num_linha (fuel + 1) i =
        Option.map (fun ts => Token.mk TokenType.CARACTERE (String.mk [c1]) num_linha :: ts)
          (scanFrom linha num_linha fuel (i + 3)))
    ∧ ((∀ c2, linha[i + 2]? = some c2 → c2 ≠ singleQuote) →
      scanFrom linha num_linha (fuel + 1) i =
        some [Token.mk TokenType.ERRO (String.mk (linha.drop i)) num_linha]) := by
  have hs : isSpaceCh singleQuote = false := by decide
  have ha : isAlphaCh singleQuote = false := by decide
  have hd : isDigitCh singleQuote = false := by decide
  have hq : ¬ (singleQuote = '"') := by decide
  constructor
  · intro c1 h1 h2
    simp [scanFrom, h, hs, ha, hd, hq, h2, h1]
  · intro hother
    cases h2 : linha[i + 2]? with
    | none => simp [scanFrom, h, hs, ha, hd, hq, h2]
    | some c2 =>
      have : ¬ (c2 = singleQuote) := hother c2 h2
      simp [scanFrom, h, hs, ha, hd, hq, h2, this]

/-- Witness for C2 at the concrete line consisting of a quoted letter. -/
theorem char_literal_step_witness :
    scanFrom [singleQuote, 'a', singleQuote] 7 (2 + 1) 0 =
      some [Token.mk TokenType.CARACTERE (String.mk ['a']) 7] := by
  have h := (char_literal_step [singleQuote, 'a', singleQuote] 7 0 2 (by decide)).1
    'a' (by decide) (by decide)
  rw [h]
  decide

/-- C9: the char-literal rule does not require the inner character to
differ from a quote: a single quote at `i`, any character at `i + 1` and a
single quote at `i + 2` produce a Character token whose text is the
character at `i + 1`, also when that character is itself a single quote;
in particular, scanning the three-quote line yields exactly one Character
token whose text is one single quote. -/
theorem char_literal_inner_quote (linha : List Char) (num_linha i fuel : Nat) (c1 : Char)
    (h : linha[i]? = some singleQuote) (h1 : linha[i + 1]? = some c1)
    (h2 : linha[i + 2]? = some singleQuote) :
    scanFrom linha num_linha (fuel + 1) i =
      Option.map (fun ts => Token.mk TokenType.CARACTERE (String.mk [c1]) num_linha :: ts)
        (scanFrom linha num_linha fuel (i + 3))
    ∧ analisar_linha [singleQuote, singleQuote, singleQuote] 1 =
        some [Token.mk TokenType.CARACTERE (String.mk [singleQuote]) 1] := by
  constructor
  · have hs : isSpaceCh singleQuote = false := by decide
    have ha : isAlphaCh singleQuote = false := by decide
    have hd : isDigitCh singleQuote = false := by decide
    have hq : ¬ (singleQuote = '"') := by decide
    simp [scanFrom, h, hs, ha, hd, hq, h2, h1]
  · decide

/-- Witness for C9 at the three-quote line. -/
theorem char_literal_inner_quote_witness :
    scanFrom [singleQuote, singleQuote, singleQuote] 1 (2 + 1) 0 =
      some [Token.mk TokenType.CARACTERE (String.mk [singleQuote]) 1] := by
  have h := (char_literal_inner_quote [singleQuote, singleQuote, singleQuote] 1 0 2 singleQuote
    (by decide) (by decide) (by decide)).1
  rw [h]
  decide

/-- The first character of the numeric loop is consumed when it is a digit. -/
theorem numTake_cons_digit {c : Char} (rest : List Char) (p : Bool) (h : isDigitCh c = true) :
    numTake (c :: rest) p = (c :: (numTake rest p).1, (numTake rest p).2) := by
  simp [numTake, h]

theorem dot_not_digit : isDigitCh '.' = false := by decide

/-- Every character the numeric loop consumes is a digit or a dot. -/
theorem numTake_mem :
    ∀ (s : List Char) (p : Bool) (x : Char),
      x ∈ (numTake s p).1 → isDigitCh x = true ∨ x = '.' := by
  intro s
  induction s with
  | nil => intro p x h; simp [numTake] at h
  | cons a s ih =>
    intro p x h
    by_cases ha : isDigitCh a = true
    · rw [numTake_cons_digit s p ha] at h
      rcases List.mem_cons.1 h with rfl | h
      · exact Or.inl ha
      · exact ih p x h
    · by_cases hd : a = '.'
      · subst hd
        cases p with
        | true => simp [numTake, dot_not_digit] at h
        | false =>
          simp only [numTake, dot_not_digit, Bool.false_eq_true, if_false, if_pos rfl,
            if_neg (Bool.false_ne_true)] at h
          rcases List.mem_cons.1 h with rfl | h
          · exact Or.inr rfl
          · exact ih true x h
      · simp [numTake, ha, hd] at h

/-- The numeric loop consumes at most one dot when started with the flag
down, and none with the flag up. -/
theorem numTake_count :
    ∀ (s : List Char) (p : Bool), (numTake s p).1.count '.' ≤ if p then 0 else 1 := by
  intro s
  induction s with
  | nil => intro p; simp [numTake]
  | cons a s ih =>
    intro p
    by_cases ha : isDigitCh a = true
    · rw [numTake_cons_digit s p ha]
      have hne : ¬ (a = '.') := by
        intro hda; rw [hda, dot_not_digit] at ha; exact Bool.false_ne_true ha
      simpa [List.count_cons, hne] using ih p
    · by_cases hd : a = '.'
      · subst hd
        cases p with
        | true => simp [numTake, dot_not_digit]
        | false =>
          simp only [numTake, dot_not_digit, Bool.false_eq_true, if_false, if_pos rfl,
            if_neg (Bool.false_ne_true)]
          have h0 := ih true
          simp only [eq_self_iff_true, if_true, Nat.le_zero] at h0
          simp [List.count_cons, h0]
      · simp [numTake, ha, hd]

/-- The final dot flag of the numeric loop records whether a dot was
consumed (or the flag was already up on entry). -/
theorem numTake_ponto :
    ∀ (s : List Char) (p : Bool),
      ((numTake s p).2 = true ↔ (p = true ∨ '.' ∈ (numTake s p).1)) := by
  intro s
  induction s with
  | nil => intro p; simp [numTake]
  | cons a s ih =>
    intro p
    by_cases ha : isDigitCh a = true
    · rw [numTake_cons_digit s p ha]
      have hne : ¬ (a = '.') := by
        intro hda; rw [hda, dot_not_digit] at ha; exact Bool.false_ne_true ha
      simp only [List.mem_cons]
      rw [ih p]
      constructor
      · rintro (hp | hm)
        · exact Or.inl hp
        · exact Or.inr (Or.inr hm)
      · rintro (hp | hda | hm)
        · exact Or.inl hp
        · exact absurd hda.symm hne
        · exact Or.inr hm
    · by_cases hd : a = '.'
      · subst hd
        cases p with
        | true => simp [numTake, dot_not_digit]
        | false =>
          simp only [numTake, dot_not_digit, Bool.false_eq_true, if_false, if_pos rfl,
            if_neg (Bool.false_ne_true)]
          simp [ih true]
      · simp [numTake, ha, hd]

/-- The character at which the numeric loop stops, when it exists, is
either no digit and no dot, or a dot while a dot was already consumed. -/
theorem numTake_stop :
    ∀ (s : List Char) (p : Bool) (ch : Char),
      s[(numTake s p).1.length]? = some ch →
      isDigitCh ch = false ∧ (ch = '.' → (numTake s p).2 = true) := by
  intro s
  induction s with
  | nil => intro p ch h; simp at h
  | cons a s ih =>
    intro p ch h
    by_cases ha : isDigitCh a = true
    · rw [numTake_cons_digit s p ha] at h ⊢
      exact ih p ch (by simpa using h)
    · by_cases hd : a = '.'
      · subst hd
        cases p with
        | true =>
          simp only [numTake, dot_not_digit, Bool.false_eq_true, if_false, if_pos rfl,
            if_pos rfl] at h ⊢
          simp at h
          exact ⟨h ▸ dot_not_digit, fun _ => rfl⟩
        | false =>
          simp only [numTake, dot_not_digit, Bool.false_eq_true, if_false, if_pos rfl,
            if_neg (Bool.false_ne_true)] at h ⊢
          exact ih true ch (by simpa using h)
      · simp only [numTake, ha, Bool.false_eq_true, if_false, if_neg hd] at h ⊢
        simp at h
        subst h
        refine ⟨Bool.eq_false_iff.2 ha, fun hda => absurd hda hd⟩

/-- C3 (amended): at a scan position holding a letter, the scanner greedily
consumes the maximal run of letters, digits and underscores from that
position, emits one token classified as ReservedWord when the lexeme is in
the fixed set int, real, char, return, else as Identifier, and resumes
after the run.  An underscore does not start an identifier: at a dispatch
position holding an underscore the scanner emits a single-character Error
token and advances one position. -/
theorem ident_letter_step (linha : List Char) (num_linha i fuel : Nat) (c : Char)
    (h : linha[i]? = some c) (hc : isAlphaCh c = true) :
    scanFrom linha num_linha (fuel + 1) i =
      Option.map (fun ts =>
        Token.mk
          (if String.mk (identTake (linha.drop i)) ∈ palavras_reservadas then
            TokenType.PALAVRA_RESERVADA else TokenType.IDENTIFICADOR)
          (String.mk (identTake (linha.drop i))) num_linha :: ts)
        (scanFrom linha num_linha fuel (i + (identTake (linha.drop i)).length))
    ∧ (∀ x ∈ identTake (linha.drop i), (isAlnumCh x || x == '_') = true)
    ∧ (∀ ch, (linha.drop i)[(identTake (linha.drop i)).length]? = some ch →
        (isAlnumCh ch || ch == '_') = false)
    ∧ palavras_reservadas = ["int", "real", "char", "return"]
    ∧ (∀ j, linha[j]? = some '_' →
        scanFrom linha num_linha (fuel + 1) j =
          Option.map (fun ts => Token.mk TokenType.ERRO (String.mk ['_']) num_linha :: ts)
            (scanFrom linha num_linha fuel (j + 1))) := by
  refine ⟨?_, ?_, ?_, rfl, ?_⟩
  · simp [scanFrom, h, isAlphaCh_not_space hc, hc]
  · intro x hx
    exact takeWhile_mem (linha.drop i) x hx
  · intro ch hch
    exact takeWhile_stop (linha.drop i) ch hch
  · intro j hj
    have h1 : isSpaceCh '_' = false := by decide
    have h2 : isAlphaCh '_' = false := by decide
    have h3 : isDigitCh '_' = false := by decide
    have h4 : ¬ ('_' = '"') := by decide
    have h5 : ¬ ('_' = singleQuote) := by decide
    have h6 : ¬ ('_' = '\\') := by decide
    have h7 : ¬ ('_' ∈ simbolos) := by decide
    simp [scanFrom, hj, h1, h2, h3, h4, h5, h6, h7]

/-- Witness for C3 at the concrete line `ab2` followed by a space and an
underscore dispatch on the line holding one underscore. -/
theorem ident_letter_step_witness :
    scanFrom ("ab2 ".data) 4 (3 + 1) 0 =
      Option.map (fun ts => Token.mk TokenType.IDENTIFICADOR "ab2" 4 :: ts)
        (scanFrom ("ab2 ".data) 4 3 3) := by
  have h := (ident_letter_step ("ab2 ".data) 4 0 3 'a' (by decide) (by decide)).1
  rw [h]
  decide

/-- Counterexample to C3 as stated: an underscore at the scan position is
not consumed into an identifier lexeme; the line holding one underscore
scans to a single Error token, not an Identifier token. -/
theorem ident_underscore_counterexample :
    analisar_linha ['_'] 1 = some [Token.mk TokenType.ERRO (String.mk ['_']) 1]
    ∧ TokenType.ERRO ≠ TokenType.IDENTIFICADOR := by
  exact ⟨by decide, by decide⟩

/-- C4: at a scan position holding a digit, the scanner consumes the
maximal run of digits and at most one dot starting there, a second dot
ends the lexeme without being consumed (scanning resumes on it), and the
emitted token is Real when a dot was consumed, else Number, with the
consumed lexeme as its text. -/
theorem number_step (linha : List Char) (num_linha i fuel : Nat) (c : Char)
    (h : linha[i]? = some c) (hc : isDigitCh c = true) :
    scanFrom linha num_linha (fuel + 1) i =
      Option.map (fun ts =>
        Token.mk (if (numTake (linha.drop i) false).2 then TokenType.REAL else TokenType.NUMERO)
          (String.mk (numTake (linha.drop i) false).1) num_linha :: ts)
        (scanFrom linha num_linha fuel (i + (numTake (linha.drop i) false).1.length))
    ∧ (∀ x ∈ (numTake (linha.drop i) false).1, isDigitCh x = true ∨ x = '.')
    ∧ (numTake (linha.drop i) false).1.count '.' ≤ 1
    ∧ ((numTake (linha.drop i) false).2 = true ↔ '.' ∈ (numTake (linha.drop i) false).1)
    ∧ (∀ ch, (linha.drop i)[(numTake (linha.drop i) false).1.length]? = some ch →
        isDigitCh ch = false ∧ (ch = '.' → (numTake (linha.drop i) false).2 = true)) := by
  refine ⟨?_, ?_, ?_, ?_, ?_⟩
  · simp [scanFrom, h, isDigitCh_not_space hc, isDigitCh_not_alpha hc, hc]
  · intro x hx
    exact numTake_mem (linha.drop i) false x hx
  · simpa using numTake_count (linha.drop i) false
  · simpa using numTake_ponto (linha.drop i) false
  · intro ch hch
    exact numTake_stop (linha.drop i) false ch hch

/-- Witness for C4 at the concrete line `3.5.7`: the numeric lexeme stops
before the second dot. -/
theorem number_step_witness :
    scanFrom ("3.5.7".data) 2 (4 + 1) 0 =
      Option.map (fun ts => Token.mk TokenType.REAL "3.5" 2 :: ts)
        (scanFrom ("3.5.7".data) 2 4 3) := by
  have h := (number_step ("3.5.7".data) 2 0 4 '3' (by decide) (by decide)).1
  rw [h]
  decide

/-- C5: at a scan position holding a double quote with no closing double
quote anywhere in the remainder of the line, the scanner emits exactly one
String token whose text is everything after the opening quote up to line
end, and no Error token. -/
theorem string_unterminated_step (linha : List Char) (num_linha i fuel : Nat)
    (h : linha[i]? = some '"') (hno : '"' ∉ linha.drop (i + 1)) :
    scanFrom linha num_linha (fuel + 1) i =
      some [Token.mk TokenType.STRING (String.mk (linha.drop (i + 1))) num_linha] := by
  have hs : isSpaceCh '"' = false := by decide
  have ha : isAlphaCh '"' = false := by decide
  have hd : isDigitCh '"' = false := by decide
  have hself : strTake (linha.drop (i + 1)) = linha.drop (i + 1) := by
    apply takeWhile_all_eq_self
    intro x hx
    simp only [bne_iff_ne, ne_eq, decide_eq_true_eq]
    intro hxq
    exact hno (hxq ▸ hx)
  have hi : i < linha.length := lt_length_of_getElem? h
  have hlen : (linha.drop (i + 1)).length = linha.length - (i + 1) := by simp
  simp only [scanFrom, h, hs, ha, hd, Bool.false_eq_true, if_false, if_pos rfl, strTake] at *
  rw [hself, scanFrom_past linha num_linha fuel _ (by omega)]
  rfl

/-- Witness for C5 at the concrete unterminated line of a quote followed
by two letters. -/
theorem string_unterminated_step_witness :
    scanFrom ("\"ab".data) 3 (2 + 1) 0 = some [Token.mk TokenType.STRING "ab" 3] := by
  have h := string_unterminated_step ("\"ab".data) 3 0 2 (by decide) (by decide)
  rw [h]
  decide

/-- Fuel sufficiency and bounds safety of the scanning loop: with fuel at
least the number of positions left on the line, the loop always returns a
token list — it neither runs out of fuel (every iteration advances the
cursor) nor performs an out-of-bounds character access. -/
theorem scanFrom_isSome (linha : List Char) (num_linha : Nat) :
    ∀ (fuel i : Nat), linha.length - i ≤ fuel →
      (scanFrom linha num_linha fuel i).isSome = true := by
  intro fuel
  induction fuel with
  | zero =>
    intro i hfi
    have hle : linha.length ≤ i := by omega
    simp [scanFrom, hle]
  | succ fuel ih =>
    intro i hfi
    cases hget : linha[i]? with
    | none => simp [scanFrom, hget]
    | some c =>
      have hi : i < linha.length := lt_length_of_getElem? hget
      have hdrop : linha.drop i = c :: linha.drop (i + 1) := drop_cons_of_getElem? hget
      by_cases hs : isSpaceCh c = true
      · simp only [scanFrom, hget, if_pos hs]
        exact ih (i + 1) (by omega)
      · by_cases ha : isAlphaCh c = true
        · have hlex : 1 ≤ (identTake (linha.drop i)).length := by
            rw [hdrop, identTake, List.takeWhile_cons_of_pos (by simp [isAlphaCh_alnum ha])]
            simp
          simp only [scanFrom, hget, if_neg hs, if_pos ha, Option.isSome_map']
          exact ih _ (by omega)
        · by_cases hd : isDigitCh c = true
          · have hnum : 1 ≤ (numTake (linha.drop i) false).1.length := by
              rw [hdrop, numTake_cons_digit _ false hd]
              simp
            simp only [scanFrom, hget, if_neg hs, if_neg ha, if_pos hd, Option.isSome_map']
            exact ih _ (by omega)
          · by_cases hq : c = '"'
            · simp only [scanFrom, hget, if_neg hs, if_neg ha, if_neg hd, if_pos hq,
                Option.isSome_map']
              exact ih _ (by omega)
            · by_cases hsq : c = singleQuote
              · simp only [scanFrom, hget, if_neg hs, if_neg ha, if_neg hd, if_neg hq,
                  if_pos hsq]
                cases h2 : linha[i + 2]? with
                | none => simp
                | some c2 =>
                  by_cases hc2 : c2 = singleQuote
                  · have h1lt : i + 1 < linha.length := by
                      have := lt_length_of_getElem? h2
                      omega
                    cases h1 : linha[i + 1]? with
                    | none =>
                      rw [List.getElem?_eq_none_iff] at h1
                      omega
                    | some c1 =>
                      simp only [if_pos hc2, Option.isSome_map']
                      exact ih _ (by omega)
                  · simp [hc2]
              · by_cases hcm : c = '\\' ∧ linha[i + 1]? = some '\\'
                · simp only [scanFrom, hget, if_neg hs, if_neg ha, if_neg hd, if_neg hq,
                    if_neg hsq, if_pos hcm]
                  simp
                · by_cases hsym : c ∈ simbolos
                  · simp only [scanFrom, hget, if_neg hs, if_neg ha, if_neg hd, if_neg hq,
                      if_neg hsq, if_neg hcm, if_pos hsym, Option.isSome_map']
                    exact ih _ (by omega)
                  · simp only [scanFrom, hget, if_neg hs, if_neg ha, if_neg hd, if_neg hq,
                      if_neg hsq, if_neg hcm, if_neg hsym, Option.isSome_map']
                    exact ih _ (by omega)

/-- C8: `analisar_linha` is total on every line and line number: the
embedded loop never runs out of its fuel (the Python loop terminates) and
never reaches the `none` that models an out-of-bounds character access
(the Python code never raises); lexical anomalies only surface as
Error-kind tokens inside the returned list. -/
theorem analisar_linha_total (linha : List Char) (num_linha : Nat) :
    (analisar_linha linha num_linha).isSome = true :=
  scanFrom_isSome linha num_linha linha.length 0 (by omega)

/-! ## Claims about the recognizer -/

/-- C1: the statement dispatch of `parse_comando` selects the return-statement
parser when the current token is the reserved word return, the
variable-declaration parser when it is a type reserved word, and at an
Identifier inspects the next token without consuming it: the Symbol `=`
selects the assignment parser, the Symbol `(` the call-statement parser,
and any other follower is a syntax error naming both the identifier and
the follower; any other token kind at statement start is a syntax error. -/
theorem parse_comando_dispatch (tokens : List Token) (fuel pos : Nat) (t : Token)
    (h : tokens[pos]? = some t) :
    (t.tipo = TokenType.PALAVRA_RESERVADA → t.valor = "return" →
      parse_comando tokens fuel pos = parse_comando_retorno tokens fuel pos)
    ∧ (t.tipo = TokenType.PALAVRA_RESERVADA →
        (t.valor = "int" ∨ t.valor = "real" ∨ t.valor = "char") →
      parse_comando tokens fuel pos = parse_declaracao_variavel tokens fuel pos)
    ∧ (t.tipo = TokenType.IDENTIFICADOR → ∀ nt, tokens[pos + 1]? = some nt →
        ((nt.tipo = TokenType.SIMBOLO ∧ nt.valor = "=") →
          parse_comando tokens fuel pos = parse_atribuicao tokens fuel pos)
        ∧ ((nt.tipo = TokenType.SIMBOLO ∧ nt.valor = "(") →
          parse_comando tokens fuel pos = parse_chamada_funcao_stmt tokens fuel pos)
        ∧ (¬ (nt.tipo = TokenType.SIMBOLO ∧ nt.valor = "=") →
           ¬ (nt.tipo = TokenType.SIMBOLO ∧ nt.valor = "(") →
          parse_comando tokens fuel pos =
            Except.error ⟨"After identifier " ++ quoted t.valor ++ ", expected " ++ quoted "="
              ++ " or " ++ quoted "(" ++ " but got " ++ quoted nt.valor, .line nt.linha⟩))
    ∧ (t.tipo ≠ TokenType.PALAVRA_RESERVADA → t.tipo ≠ TokenType.IDENTIFICADOR →
      parse_comando tokens fuel pos =
        Except.error ⟨"Unexpected token " ++ quoted t.valor ++ " to start a command.",
          .line t.linha⟩) := by
  refine ⟨?_, ?_, ?_, ?_⟩
  · intro h1 h2
    simp [parse_comando, h, h1, h2]
  · intro h1 h2
    rcases h2 with h2 | h2 | h2 <;> simp [parse_comando, h, h1, h2]
  · intro h1 nt hnt
    refine ⟨?_, ?_, ?_⟩
    · intro he
      simp [parse_comando, h, h1, hnt, he.1, he.2]
    · intro hp
      simp [parse_comando, h, h1, hnt, hp.1, hp.2]
    · intro hne1 hne2
      simp [parse_comando, h, h1, hnt, hne1, hne2]
  · intro h1 h2
    simp [parse_comando, h, h1, h2]

/-- Witness for C1: a lone return reserved word at the cursor selects the
return-statement parser. -/
theorem parse_comando_dispatch_witness :
    parse_comando [Token.mk TokenType.PALAVRA_RESERVADA "return" 3] 5 0 =
      parse_comando_retorno [Token.mk TokenType.PALAVRA_RESERVADA "return" 3] 5 0 :=
  (parse_comando_dispatch [Token.mk TokenType.PALAVRA_RESERVADA "return" 3] 5 0
    (Token.mk TokenType.PALAVRA_RESERVADA "return" 3) (by decide)).1 rfl rfl

/-- C6: recognition succeeds exactly when the cursor sits at the end of
the sequence after the function declaration; when a token remains,
`parse_programa` fails with a syntax error naming that token and carrying
its line. -/
theorem parse_programa_end (tokens : List Token) :
    (parse_programa tokens = Except.ok () ↔
      ∃ p, parse_declaracao_funcao tokens (tokens.length + 1) 0 = Except.ok p
        ∧ tokens[p]? = none)
    ∧ (∀ p t, parse_declaracao_funcao tokens (tokens.length + 1) 0 = Except.ok p →
        tokens[p]? = some t →
        parse_programa tokens =
          Except.error ⟨"Unexpected token " ++ quoted t.valor ++ " after program completion.",
            .line t.linha⟩) := by
  constructor
  · constructor
    · intro hok
      cases hdecl : parse_declaracao_funcao tokens (tokens.length + 1) 0 with
      | error e => simp [parse_programa, hdecl] at hok
      | ok p =>
        cases hget : tokens[p]? with
        | some t => simp [parse_programa, hdecl, hget] at hok
        | none => exact ⟨p, rfl, hget⟩
    · rintro ⟨p, hdecl, hget⟩
      simp [parse_programa, hdecl, hget]
  · intro p t hdecl hget
    simp [parse_programa, hdecl, hget]

/-- The token sequence of a function declaration with no body, followed by
one extra identifier token on a later line. -/
def extraTokens : List Token :=
  [Token.mk TokenType.PALAVRA_RESERVADA "int" 1, Token.mk TokenType.IDENTIFICADOR "main" 1,
   Token.mk TokenType.SIMBOLO "(" 1, Token.mk TokenType.SIMBOLO ")" 1,
   Token.mk TokenType.SIMBOLO lbrace 1, Token.mk TokenType.SIMBOLO rbrace 1,
   Token.mk TokenType.IDENTIFICADOR "x" 2]

/-- Witness for C6: the extra identifier after the closing brace is
reported with its line. -/
theorem parse_programa_end_witness :
    parse_programa extraTokens =
      Except.error ⟨"Unexpected token " ++ quoted "x" ++ " after program completion.",
        LineInfo.line 2⟩ :=
  (parse_programa_end extraTokens).2 6 (Token.mk TokenType.IDENTIFICADOR "x" 2)
    (by decide) (by decide)

/-- C10: on the empty token sequence, recognition always fails, reporting
that a type was expected while the input was exhausted (the Python code
stores the string EOF in the line slot and the string None as the found
value), and the freshly initialized cursor addresses no token. -/
theorem parse_programa_empty :
    parse_programa ([] : List Token) =
      Except.error ⟨"Expected type (int, real, char), got " ++ quoted "None", .eofLine⟩
    ∧ currentToken [] 0 = none := by
  exact ⟨by decide, rfl⟩

/-- The C7 source line, with the semicolon missing before return. -/
def c7Line : List Char := "int main() \x7b int a = 3 return a; \x7d".data

/-- The token sequence the scanner produces from the C7 line. -/
def c7Tokens : List Token :=
  [Token.mk TokenType.PALAVRA_RESERVADA "int" 1, Token.mk TokenType.IDENTIFICADOR "main" 1,
   Token.mk TokenType.SIMBOLO "(" 1, Token.mk TokenType.SIMBOLO ")" 1,
   Token.mk TokenType.SIMBOLO lbrace 1, Token.mk TokenType.PALAVRA_RESERVADA "int" 1,
   Token.mk TokenType.IDENTIFICADOR "a" 1, Token.mk TokenType.SIMBOLO "=" 1,
   Token.mk TokenType.NUMERO "3" 1, Token.mk TokenType.PALAVRA_RESERVADA "return" 1,
   Token.mk TokenType.IDENTIFICADOR "a" 1, Token.mk TokenType.SIMBOLO ";" 1,
   Token.mk TokenType.SIMBOLO rbrace 1]

/-- The syntax error recognition of the C7 tokens produces: the
type-mismatch branch of `_consume`, whose message names the expected token
type Symbol and the found token, but not the expected value. -/
def c7Err : SyntaxError :=
  ⟨"Expected token type Simbolo, got PalavraReservada (" ++ quoted "return" ++ ")", .line 1⟩

/-- Counterexample to C7 as stated: recognition of the C7 line does fail
at the line of return, but the raised error does not report the expected
value — no semicolon occurs anywhere in its message, which names only the
expected token type Symbol and the found reserved word return. -/
theorem missing_semicolon_counterexample :
    analisar_linha c7Line 1 = some c7Tokens
    ∧ parse_programa c7Tokens = Except.error c7Err
    ∧ ';' ∉ c7Err.message.data := by
  exact ⟨by decide, by decide, by decide⟩

/-- C7 (amended): recognition of the token sequence scanned from the C7
line fails with the type-mismatch error — Symbol expected, reserved word
return found — carrying the line number of the line containing return;
the expected value semicolon is not part of the report. -/
theorem missing_semicolon_amended :
    analisar_linha c7Line 1 = some c7Tokens
    ∧ parse_programa c7Tokens = Except.error c7Err
    ∧ c7Err.linha = LineInfo.line 1
    ∧ c7Err.message =
        "Expected token type Simbolo, got PalavraReservada (" ++ quoted "return" ++ ")" := by
  exact ⟨by decide, by decide, rfl, rfl⟩

end AnalisadorSintatico
